import Mathlib

/-!
Verification of the RAG-demo chat application core (repository `JEHoctor/RAG-demo`).

The development shallowly embeds the parts of `src/rag_demo` that the checked
properties are about:

* `Logic` (src/rag_demo/logic.py): the `generating` flag, the `current_thread`
  counter, `submit_request`, `stream_response`, `new_conversation`;
* `DummyAgent` (src/rag_demo/agents/dummy.py);
* `OllamaAgent.astream` chunk filtering (src/rag_demo/agents/ollama.py);
* `LocalProviderType` (src/rag_demo/constants.py);
* the module-level name binding and call binding that decide whether
  `rag_demo.logic` can be imported and whether the CLI entrypoint can call
  `Logic(...)` (src/rag_demo/__main__.py, src/rag_demo/modes/chat.py);
* the provider trial loop of `Logic.runtime`, which is absent from this
  snapshot of logic.py (its tests and the `AgentProvider` Protocol exist, the
  implementation does not); that one piece is modelled from the spec.

Python state is passed explicitly: the mutable `Logic` object becomes a
`LogicState`, the Textual screen and worker system become an explicit event
list and a pending-worker list, an async generator becomes the list of values
it yields, and a raised exception becomes an `Except.error`.
-/

set_option autoImplicit false

namespace RagDemo

/-! ### Logic state (src/rag_demo/logic.py) -/

/-- The attributes of the `Logic` object that `new_conversation`,
`submit_request` and `stream_response` read or write.  `__init__` sets
`self.agent = None` (line 94), `self.current_thread = 1` (line 95) and
`self.generating = False` (line 112); it reads neither value from any durable
store. -/
structure LogicState where
  generating : Bool
  currentThread : Nat
  agentReady : Bool
deriving DecidableEq, Repr

/-- State of a freshly constructed `Logic` object (logic.py lines 94, 95, 112). -/
def Logic.init : LogicState :=
  { generating := false, currentThread := 1, agentReady := false }

/-- Calls made on the `ChatScreen` collaborator, in order. -/
inductive ScreenEvent where
  | newRequest (text : String)
  | newResponse
  | clearChats
deriving DecidableEq, Repr

/-- A `stream_response` coroutine handed to `chat_screen.run_worker`: it is
scheduled, not yet running. -/
structure Worker where
  requestText : String
  thread : String
deriving DecidableEq, Repr

/-- The logic state together with the observable effects on the presentation
layer: screen calls made so far and stream workers scheduled so far. -/
structure AppState where
  logic : LogicState
  screen : List ScreenEvent
  pendingWorkers : List Worker
deriving DecidableEq, Repr

/-- Application state right after `Logic.__init__`: fresh logic state, no
screen calls, no scheduled workers. -/
def appInit : AppState :=
  { logic := Logic.init, screen := [], pendingWorkers := [] }

/-- `Logic.submit_request` (logic.py lines 134-142).  If `self.generating` is
true it returns `False` at once.  Otherwise it sets `generating = True`, calls
`chat_screen.new_request`, `chat_screen.new_response`, schedules the
`stream_response` worker with `str(self.current_thread)`, sets
`generating = False`, and returns `True`; the body has no `await`, so the
returned state is the state at every later suspension point until the worker
runs. -/
def Logic.submitRequest (s : AppState) (requestText : String) : Bool × AppState :=
  if s.logic.generating then
    (false, s)
  else
    (true,
      { logic := { s.logic with generating := false },
        screen := s.screen ++ [ScreenEvent.newRequest requestText, ScreenEvent.newResponse],
        pendingWorkers :=
          s.pendingWorkers ++ [{ requestText := requestText, thread := toString s.logic.currentThread }] })

/-- `Logic.new_conversation` (logic.py lines 130-132): increment
`self.current_thread` and call `chat_screen.clear_chats()`. -/
def Logic.newConversation (s : AppState) : AppState :=
  { s with
    logic := { s.logic with currentThread := s.logic.currentThread + 1 },
    screen := s.screen ++ [ScreenEvent.clearChats] }

/-- Errors that the agent stream can raise mid-iteration and that
`stream_response` catches (logic.py lines 172-177). -/
inductive StreamErr where
  | stoppedStream (msg : String)
  | langChain (msg : String)
deriving DecidableEq, Repr

/-- What one call to `self.agent.astream(...)` produces: the
`pprint.pformat` of each chunk in order (`pformat` returns `str`, so the
non-string guard at logic.py lines 165-169 never fires), then optionally a
raised `StoppedStreamError` or `LangChainException`. -/
structure AgentStream where
  chunks : List String
  terminalErr : Option StreamErr
deriving DecidableEq, Repr

/-- Observable effects of `stream_response` on the `Response` widget: tokens
written through the stream writer, `log.info` lines, and the object passed to
`set_shown_object` when an error was caught. -/
structure ResponseWidget where
  written : List String
  loggedInfo : List String
  shownObject : Option StreamErr
deriving DecidableEq, Repr

/-- `Logic.stream_response` (logic.py lines 144-179).  Raises `RuntimeError`
when `self.agent is None`; otherwise logs and writes each chunk and routes a
caught `StoppedStreamError` or `LangChainException` into
`set_shown_object`.  The method reads and writes no other `Logic` attribute:
in particular `self.generating` is untouched on every path, which is why the
returned `LogicState` is the input one. -/
def Logic.streamResponse (st : LogicState) (stream : AgentStream) :
    Except String (LogicState × ResponseWidget) :=
  if st.agentReady then
    Except.ok (st,
      { written := stream.chunks,
        loggedInfo := stream.chunks,
        shownObject := stream.terminalErr })
  else
    Except.error "Agent is not initialized"

/-! ### Session traces over the Logic state machine -/

/-- One call made by the presentation layer within a session. -/
inductive Op where
  | newConversation
  | submitRequest (text : String)
deriving DecidableEq, Repr

/-- Run one operation; the second component lists the thread id passed to the
scheduled `stream_response` worker, when the submission was accepted. -/
def stepOp (s : AppState) : Op → AppState × List Nat
  | Op.newConversation => (Logic.newConversation s, [])
  | Op.submitRequest t =>
      ((Logic.submitRequest s t).2,
        if (Logic.submitRequest s t).1 then [s.logic.currentThread] else [])

/-- Run a session trace, collecting every thread id used by an accepted
submission, in order. -/
def runOps (s : AppState) : List Op → AppState × List Nat
  | [] => (s, [])
  | op :: ops =>
      ((runOps (stepOp s op).1 ops).1, (stepOp s op).2 ++ (runOps (stepOp s op).1 ops).2)

/-! ### DummyAgent (src/rag_demo/agents/dummy.py) -/

/-- The application collaborator passed to `Agent.astream`; the dummy agent
deletes it unused. -/
structure AppLike where
  loggedErrors : List String
deriving DecidableEq, Repr

/-- `DummyAgent.__init__` state (dummy.py lines 19-28).  `delay` is a float
number of seconds in the source (default 0.02); it only feeds
`asyncio.sleep`, so it is kept as hundredths of a second. -/
structure DummyAgent where
  response : List String
  delayCentis : Nat
deriving DecidableEq, Repr

/-- Default-constructed `DummyAgent` (dummy.py line 19). -/
def DummyAgent.default : DummyAgent :=
  { response := ["Hello", ",", " World", "!"], delayCentis := 2 }

/-- The loop body of `DummyAgent.astream`: `for token in self.response:
yield token; await asyncio.sleep(delay)` — one yield per configured token. -/
def yieldEach : List String → List String
  | [] => []
  | t :: rest => t :: yieldEach rest

/-- `DummyAgent.astream` (dummy.py lines 30-44): deletes `user_message`,
`thread_id` and `app`, then yields each token of `self.response` in order;
the value is the finite list of yielded tokens. -/
def DummyAgent.astream (a : DummyAgent) (userMessage threadId : String) (app : AppLike) :
    List String :=
  yieldEach a.response

/-! ### OllamaAgent.astream chunk filtering (src/rag_demo/agents/ollama.py) -/

/-- The `content` attribute of an `AIMessageChunk`: either a string or a value
of some other type, recorded by its type name. -/
inductive Payload where
  | strContent (s : String)
  | nonStrContent (tyName : String)
deriving DecidableEq, Repr

/-- One `(message_chunk, _)` element of the LangGraph message stream: an
`AIMessageChunk` with its content, or a chunk of another type. -/
inductive MessageChunk where
  | ai (content : Payload)
  | nonAI (tyName : String)
deriving DecidableEq, Repr

/-- Externally visible actions of `OllamaAgent.astream`, in order: a yielded
token or an `app.log.error` diagnostic. -/
inductive AgentEvent where
  | yieldTok (tok : String)
  | logErr (msg : String)
deriving DecidableEq, Repr

/-- The `async for` body of `OllamaAgent.astream` (ollama.py lines 64-72):
yield string contents of `AIMessageChunk`s; for a non-string content or a
non-`AIMessageChunk` chunk, log an error and continue with the rest of the
stream.  Every branch proceeds to the next chunk and none raises. -/
def OllamaAgent.astreamEvents : List MessageChunk → List AgentEvent
  | [] => []
  | MessageChunk.ai (Payload.strContent s) :: rest =>
      AgentEvent.yieldTok s :: OllamaAgent.astreamEvents rest
  | MessageChunk.ai (Payload.nonStrContent ty) :: rest =>
      AgentEvent.logErr ("Received message content of type " ++ ty) :: OllamaAgent.astreamEvents rest
  | MessageChunk.nonAI ty :: rest =>
      AgentEvent.logErr ("Received message chunk of type " ++ ty) :: OllamaAgent.astreamEvents rest

/-! ### LocalProviderType (src/rag_demo/constants.py) -/

/-- `LocalProviderType` (constants.py lines 6-11): a `StrEnum` with exactly the
members `HUGGING_FACE`, `LLAMA_CPP` and `OLLAMA`. -/
inductive LocalProviderType where
  | HUGGING_FACE
  | LLAMA_CPP
  | OLLAMA
deriving DecidableEq, Repr

/-- Python attribute access `LocalProviderType.<name>`: `some` member for the
three defined member names, `none` (AttributeError) for any other name. -/
def LocalProviderType.attrLookup : String → Option LocalProviderType
  | "HUGGING_FACE" => some LocalProviderType.HUGGING_FACE
  | "LLAMA_CPP" => some LocalProviderType.LLAMA_CPP
  | "OLLAMA" => some LocalProviderType.OLLAMA
  | _ => none

/-- Evaluation of the class body of `DummyAgentProvider` (dummy.py line 50):
the class attribute assignment evaluates `LocalProviderType.DUMMY`, so the
class definition succeeds exactly when that attribute lookup does. -/
def dummyAgentProviderClassDef : Except String LocalProviderType :=
  match LocalProviderType.attrLookup "DUMMY" with
  | some t => Except.ok t
  | none => Except.error "AttributeError: DUMMY"

/-! ### Module and call binding (src/rag_demo/modes/chat.py, logic.py line 32,
src/rag_demo/__main__.py line 31) -/

/-- The top-level names bound at runtime by the module `rag_demo.modes.chat`
(chat.py): every name bound by its top-level from-imports plus its three class
definitions.  `MarkdownStream` is bound only under `TYPE_CHECKING` and so is
not a runtime attribute of the module. -/
def chatModuleNames : List String :=
  ["time", "Iterable", "Path", "TYPE_CHECKING", "pyperclip", "RenderableType",
   "Highlighter", "ComposeResult", "HorizontalGroup", "VerticalGroup",
   "VerticalScroll", "Key", "reactive", "Suggester", "Validator", "Widget",
   "Button", "Footer", "Header", "Input", "Label", "Markdown", "Static",
   "InputType", "InputValidationOn", "rag", "parser_factory", "RAGDemoScreen",
   "EscapableInput", "Response", "ChatScreen"]

/-- Python `from <module> import n1, n2, ...`: succeeds when every requested
name is bound in the module, and raises ImportError at the first name that is
not. -/
def fromModule (moduleNames : List String) : List String → Except String Unit
  | [] => Except.ok ()
  | n :: rest =>
      if moduleNames.contains n then fromModule moduleNames rest
      else Except.error ("cannot import name " ++ n)

/-- The names that logic.py line 32 requests from `rag_demo.modes.chat`. -/
def logicChatImportNames : List String := ["Response", "StoppedStreamError"]

/-- The keyword parameters accepted by `Logic.__init__` (logic.py lines
44-49), besides `self`. -/
def logicInitParams : List String :=
  ["username", "application_start_time", "sqlite_connection_string"]

/-- The keyword arguments of the `Logic(...)` call in `_main`
(`__main__.py` line 31). -/
def mainCallKeywords : List String :=
  ["username", "preferred_provider_type", "application_start_time"]

/-- Python keyword-argument binding: a call raises TypeError at the first
keyword that is not a parameter of the callee. -/
def bindKeywords (params : List String) : List String → Except String Unit
  | [] => Except.ok ()
  | k :: rest =>
      if params.contains k then bindKeywords params rest
      else Except.error ("unexpected keyword argument " ++ k)

/-! ### Provider selection -/

/-- A `Runtime` constructed around the selected agent, as yielded to the
caller of `Logic.runtime`. -/
structure Runtime (α : Type) where
  agent : α
deriving DecidableEq, Repr

/-- Modelled from the spec: the provider trial loop of `Logic.runtime`
(spec section 4.5, steps 3-4).  The implementation of `Logic.runtime` is
missing from this snapshot of src/rag_demo/logic.py — its tests
(tests/rag_demo/test_logic.py, tests/rag_demo/conftest.py) call
`logic.runtime(...)`, and src/rag_demo/agents/base.py declares only the
`AgentProvider.get_agent` Protocol.  Each provider in the ordered candidate
list is represented by what its `get_agent` would yield (`some` agent or
`none`); the `Nat` counts how many providers had `get_agent` evaluated. -/
def trialProviders {α : Type} : List (Option α) → Except String α × Nat
  | [] => (Except.error "no provider available", 0)
  | none :: rest =>
      ((trialProviders rest).1, (trialProviders rest).2 + 1)
  | some a :: _ => (Except.ok a, 1)

/-- Modelled from the spec: runtime acquisition constructs a `Runtime` around
the agent selected by the provider trial loop, or fails with the trial loop's
error when no provider yields an agent. -/
def acquireRuntime {α : Type} (providers : List (Option α)) :
    Except String (Runtime α) × Nat :=
  match trialProviders providers with
  | (Except.ok a, n) => (Except.ok { agent := a }, n)
  | (Except.error e, n) => (Except.error e, n)

/-! ### Helper lemmas about submit_request and session traces -/

-- `submit_request` never changes `current_thread`, in either branch.
theorem submitRequest_currentThread (s : AppState) (t : String) :
    ((Logic.submitRequest s t).2).logic.currentThread = s.logic.currentThread := by
  cases hg : s.logic.generating <;> simp [Logic.submitRequest, hg]

-- When `generating` is false at the call, it is false again at the return.
theorem submitRequest_generating_false (s : AppState) (t : String)
    (h : s.logic.generating = false) :
    ((Logic.submitRequest s t).2).logic.generating = false := by
  simp [Logic.submitRequest, h]

theorem submitRequest_accepted (s : AppState) (t : String)
    (h : s.logic.generating = false) :
    (Logic.submitRequest s t).1 = true := by
  simp [Logic.submitRequest, h]

theorem stepOp_generating_false (s : AppState) (op : Op)
    (h : s.logic.generating = false) :
    ((stepOp s op).1).logic.generating = false := by
  cases op with
  | newConversation => simpa [stepOp, Logic.newConversation] using h
  | submitRequest t => simpa [stepOp] using submitRequest_generating_false s t h

theorem stepOp_thread_mono (s : AppState) (op : Op) :
    s.logic.currentThread ≤ ((stepOp s op).1).logic.currentThread := by
  cases op with
  | newConversation =>
      simp only [stepOp, Logic.newConversation]
      exact Nat.le_succ _
  | submitRequest t => simp [stepOp, submitRequest_currentThread]

-- A thread id recorded by one step is the pre-step `current_thread`.
theorem stepOp_ids_eq (s : AppState) (op : Op) (i : Nat)
    (h : i ∈ (stepOp s op).2) : i = s.logic.currentThread := by
  cases op with
  | newConversation => simp [stepOp, Logic.newConversation] at h
  | submitRequest t =>
      simp only [stepOp] at h
      split at h
      · simpa using h
      · simp at h

theorem runOps_generating_false : ∀ (ops : List Op) (s : AppState),
    s.logic.generating = false → ((runOps s ops).1).logic.generating = false
  | [], _, h => h
  | op :: ops, s, h =>
      runOps_generating_false ops (stepOp s op).1 (stepOp_generating_false s op h)

theorem runOps_thread_mono : ∀ (ops : List Op) (s : AppState),
    s.logic.currentThread ≤ ((runOps s ops).1).logic.currentThread
  | [], _ => Nat.le_refl _
  | op :: ops, s =>
      Nat.le_trans (stepOp_thread_mono s op) (runOps_thread_mono ops (stepOp s op).1)

-- Every used thread id lies between the trace's initial and final counter.
theorem runOps_ids_bounds : ∀ (ops : List Op) (s : AppState) (i : Nat),
    i ∈ (runOps s ops).2 →
    s.logic.currentThread ≤ i ∧ i ≤ ((runOps s ops).1).logic.currentThread := by
  intro ops
  induction ops with
  | nil =>
      intro s i h
      simp [runOps] at h
  | cons op ops ih =>
      intro s i h
      simp only [runOps] at h ⊢
      rcases List.mem_append.mp h with h1 | h2
      · have hi := stepOp_ids_eq s op i h1
        subst hi
        exact ⟨Nat.le_refl _,
          Nat.le_trans (stepOp_thread_mono s op) (runOps_thread_mono ops (stepOp s op).1)⟩
      · have hb := ih (stepOp s op).1 i h2
        exact ⟨Nat.le_trans (stepOp_thread_mono s op) hb.1, hb.2⟩

theorem runOps_pairwise : ∀ (ops : List Op) (s : AppState),
    List.Pairwise (· ≤ ·) (runOps s ops).2 := by
  intro ops
  induction ops with
  | nil =>
      intro s
      simp [runOps]
  | cons op ops ih =>
      intro s
      simp only [runOps]
      refine List.pairwise_append.mpr ⟨?_, ih (stepOp s op).1, ?_⟩
      · cases op with
        | newConversation => simp [stepOp, Logic.newConversation]
        | submitRequest t =>
            simp only [stepOp]
            split <;> simp
      · intro a ha b hb
        have ha2 := stepOp_ids_eq s op a ha
        subst ha2
        exact Nat.le_trans (stepOp_thread_mono s op)
          ((runOps_ids_bounds ops (stepOp s op).1 b hb).1)

theorem runOps_append : ∀ (l1 l2 : List Op) (s : AppState),
    runOps s (l1 ++ l2)
      = ((runOps (runOps s l1).1 l2).1,
          (runOps s l1).2 ++ (runOps (runOps s l1).1 l2).2) := by
  intro l1
  induction l1 with
  | nil =>
      intro l2 s
      simp [runOps]
  | cons op ops ih =>
      intro l2 s
      have h : runOps (stepOp s op).1 (ops.append l2)
          = ((runOps (runOps (stepOp s op).1 ops).1 l2).1,
              (runOps (stepOp s op).1 ops).2
                ++ (runOps (runOps (stepOp s op).1 ops).1 l2).2) :=
        ih l2 (stepOp s op).1
      simp only [List.cons_append, runOps, h, List.append_assoc]

-- A new conversation followed by a submission uses the incremented counter.
theorem runOps_newConv_submit (s : AppState) (t : String)
    (h : s.logic.generating = false) :
    (runOps s [Op.newConversation, Op.submitRequest t]).2
      = [s.logic.currentThread + 1] := by
  simp [runOps, stepOp, Logic.newConversation, Logic.submitRequest, h]

/-! ### Helper lemmas about streams and providers -/

theorem yieldEach_eq : ∀ l : List String, yieldEach l = l
  | [] => rfl
  | t :: rest => congrArg (t :: ·) (yieldEach_eq rest)

-- Every yielded token is the string content of some AI chunk of the input.
theorem astreamEvents_yield_mem : ∀ (chunks : List MessageChunk) (t : String),
    AgentEvent.yieldTok t ∈ OllamaAgent.astreamEvents chunks →
    MessageChunk.ai (Payload.strContent t) ∈ chunks := by
  intro chunks
  induction chunks with
  | nil =>
      intro t h
      simp [OllamaAgent.astreamEvents] at h
  | cons c rest ih =>
      intro t h
      cases c with
      | ai p =>
          cases p with
          | strContent s =>
              rcases List.mem_cons.mp h with h1 | h2
              · injection h1 with h1
                subst h1
                exact List.mem_cons_self _ _
              · exact List.mem_cons_of_mem _ (ih t h2)
          | nonStrContent ty =>
              rcases List.mem_cons.mp h with h1 | h2
              · exact absurd h1 (by simp)
              · exact List.mem_cons_of_mem _ (ih t h2)
      | nonAI ty =>
          rcases List.mem_cons.mp h with h1 | h2
          · exact absurd h1 (by simp)
          · exact List.mem_cons_of_mem _ (ih t h2)

theorem trialProviders_all_none {α : Type} :
    ∀ l : List (Option α), (∀ x ∈ l, x = none) →
      trialProviders l = (Except.error "no provider available", l.length) := by
  intro l
  induction l with
  | nil =>
      intro _
      rfl
  | cons x rest ih =>
      intro h
      have hx : x = none := h x (List.mem_cons_self x rest)
      subst hx
      have hr := ih fun y hy => h y (List.mem_cons_of_mem _ hy)
      simp [trialProviders, hr]

theorem trialProviders_first_some {α : Type} :
    ∀ (pre : List (Option α)) (a : α) (post : List (Option α)),
      (∀ x ∈ pre, x = none) →
      trialProviders (pre ++ some a :: post) = (Except.ok a, pre.length + 1) := by
  intro pre
  induction pre with
  | nil =>
      intro a post _
      rfl
  | cons x rest ih =>
      intro a post h
      have hx : x = none := h x (List.mem_cons_self x rest)
      subst hx
      have hr := ih a post fun y hy => h y (List.mem_cons_of_mem _ hy)
      simp [trialProviders, hr]

/-! ### Claim theorems -/

/-- Claim C1 (refuted by the code, which contradicts the spec's stated
guarantee): in logic.py, `submit_request` sets `generating = True` and resets
it to `False` before returning, immediately after merely scheduling the
`stream_response` worker, and `stream_response` itself never reads or writes
`generating`.  Evaluated at the failing input: a fresh `Logic` accepts
`submit_request("Hello")`, yet at return `generating` is already false while
the scheduled worker has not streamed a token; and `stream_response` leaves
`generating` unchanged both on the success path and on the caught-error path,
so the flag is false during the whole streamed response. -/
theorem generating_cleared_before_stream_runs :
    (Logic.submitRequest appInit "Hello").1 = true ∧
    ((Logic.submitRequest appInit "Hello").2).logic.generating = false ∧
    ((Logic.submitRequest appInit "Hello").2).pendingWorkers
      = [{ requestText := "Hello", thread := "1" }] ∧
    Logic.streamResponse { generating := false, currentThread := 1, agentReady := true }
        { chunks := ["tok"], terminalErr := none }
      = Except.ok ({ generating := false, currentThread := 1, agentReady := true },
          { written := ["tok"], loggedInfo := ["tok"], shownObject := none }) ∧
    Logic.streamResponse { generating := true, currentThread := 1, agentReady := true }
        { chunks := [], terminalErr := some (StreamErr.stoppedStream "stop") }
      = Except.ok ({ generating := true, currentThread := 1, agentReady := true },
          { written := [], loggedInfo := [], shownObject := some (StreamErr.stoppedStream "stop") }) :=
  ⟨rfl, rfl, rfl, rfl, rfl⟩

/-- Claim C2: for every ordered candidate list, runtime acquisition selects
the first provider whose `get_agent` yields an agent and constructs the
`Runtime` around it, evaluating exactly the providers up to and including the
winner (the result does not depend on `post`, and the evaluation count is
`pre.length + 1`); when every provider yields `none` the acquisition fails
with the "no provider available" error and no `Runtime` is produced. -/
theorem acquireRuntime_first_available_provider {α : Type}
    (pre : List (Option α)) (a : α) (post : List (Option α))
    (hpre : ∀ x ∈ pre, x = none) :
    acquireRuntime (pre ++ some a :: post) = (Except.ok { agent := a }, pre.length + 1) ∧
    ∀ providers : List (Option α), (∀ x ∈ providers, x = none) →
      acquireRuntime providers = (Except.error "no provider available", providers.length) := by
  constructor
  · simp [acquireRuntime, trialProviders_first_some pre a post hpre, Except.map]
  · intro providers hall
    simp [acquireRuntime, trialProviders_all_none providers hall, Except.map]

/-- Witness for claim C2 at concrete inputs. -/
theorem acquireRuntime_first_available_provider_witness :
    acquireRuntime [none, some 7, some 8] = (Except.ok ({ agent := 7 } : Runtime Nat), 2) ∧
    acquireRuntime ([none, none] : List (Option Nat))
      = (Except.error "no provider available", 2) :=
  ⟨(acquireRuntime_first_available_provider [none] 7 [some 8] (by decide)).1,
    (acquireRuntime_first_available_provider [none] (7 : Nat) [] (by decide)).2
      [none, none] (by decide)⟩

/-- Claim C3: a `submit_request` call made while `generating` is true returns
`False` and leaves the whole state unchanged — same `current_thread`, no new
screen events (no request display, no response slot), and no newly scheduled
stream worker. -/
theorem submitRequest_rejected_while_generating (s : AppState) (t : String)
    (h : s.logic.generating = true) :
    Logic.submitRequest s t = (false, s) := by
  simp [Logic.submitRequest, h]

/-- Witness for claim C3 at a concrete generating state. -/
theorem submitRequest_rejected_while_generating_witness :
    Logic.submitRequest
        { logic := { generating := true, currentThread := 3, agentReady := true },
          screen := [], pendingWorkers := [] } "again"
      = (false,
          { logic := { generating := true, currentThread := 3, agentReady := true },
            screen := [], pendingWorkers := [] }) :=
  submitRequest_rejected_while_generating _ "again" rfl

/-- Claim C4: for every configured token sequence and every user message,
thread id and app collaborator, `DummyAgent.astream` yields exactly the
configured tokens, in order, with no duplicates or omissions, and the stream
is the finite list ending after the last configured token. -/
theorem dummyAgent_astream_yields_configured_response
    (a : DummyAgent) (userMessage threadId : String) (app : AppLike) :
    DummyAgent.astream a userMessage threadId app = a.response :=
  yieldEach_eq a.response

/-- Claim C5 (refuted by the code, which contradicts the spec's durability
requirement and the repository's own tests): `Logic.__init__` sets
`current_thread = 1` unconditionally and persists nothing, so every session's
allocator restarts at 1.  Evaluated at the failing input — two successive
sessions over the same store, each submitting one request — both sessions use
thread id 1, colliding. -/
theorem restarted_session_reuses_thread_id_one :
    Logic.init.currentThread = 1 ∧
    (runOps appInit [Op.submitRequest "first session request"]).2 = [1] ∧
    (runOps appInit [Op.submitRequest "second session request"]).2 = [1] :=
  ⟨rfl, rfl, rfl⟩

/-- Claim C6: inserting a chunk with a non-string payload anywhere in the
backend stream adds exactly one `log.error` diagnostic at that position — the
chunk is never yielded, no exception is raised, and the stream continues with
the remaining chunks unchanged; and every token the agent stream yields is
the string content of some AI chunk of the input. -/
theorem astream_drops_nonstring_chunks (pre post : List MessageChunk) (ty : String) :
    OllamaAgent.astreamEvents (pre ++ MessageChunk.ai (Payload.nonStrContent ty) :: post)
      = OllamaAgent.astreamEvents pre
        ++ AgentEvent.logErr ("Received message content of type " ++ ty)
          :: OllamaAgent.astreamEvents post ∧
    ∀ (chunks : List MessageChunk) (t : String),
      AgentEvent.yieldTok t ∈ OllamaAgent.astreamEvents chunks →
      MessageChunk.ai (Payload.strContent t) ∈ chunks := by
  constructor
  · induction pre with
    | nil => rfl
    | cons c rest ih =>
        cases c with
        | ai p =>
            cases p with
            | strContent s => simp [OllamaAgent.astreamEvents, ih]
            | nonStrContent ty2 => simp [OllamaAgent.astreamEvents, ih]
        | nonAI ty2 => simp [OllamaAgent.astreamEvents, ih]
  · exact astreamEvents_yield_mem

/-- Witness for claim C6 at a concrete three-chunk stream. -/
theorem astream_drops_nonstring_chunks_witness :
    OllamaAgent.astreamEvents
        ([MessageChunk.ai (Payload.strContent "a")]
          ++ MessageChunk.ai (Payload.nonStrContent "list")
            :: [MessageChunk.ai (Payload.strContent "b")])
      = OllamaAgent.astreamEvents [MessageChunk.ai (Payload.strContent "a")]
        ++ AgentEvent.logErr ("Received message content of type " ++ "list")
          :: OllamaAgent.astreamEvents [MessageChunk.ai (Payload.strContent "b")] ∧
    MessageChunk.ai (Payload.strContent "b")
      ∈ [MessageChunk.ai (Payload.nonStrContent "list"),
         MessageChunk.ai (Payload.strContent "b")] :=
  ⟨(astream_drops_nonstring_chunks [MessageChunk.ai (Payload.strContent "a")]
      [MessageChunk.ai (Payload.strContent "b")] "list").1,
    (astream_drops_nonstring_chunks [] [] "x").2
      [MessageChunk.ai (Payload.nonStrContent "list"),
       MessageChunk.ai (Payload.strContent "b")] "b" (by decide)⟩

/-- Claim C7: in any session trace from a fresh `Logic`, the sequence of
thread ids used by accepted submissions is monotonically nondecreasing; a
`new_conversation` followed by a `submit_request` uses `current_thread + 1`,
which is strictly greater than — hence distinct from — every thread id used
earlier in the session, so no new conversation ever reuses an earlier id. -/
theorem thread_ids_monotone_and_fresh (ops : List Op) (t : String) :
    List.Pairwise (· ≤ ·) (runOps appInit ops).2 ∧
    (runOps appInit (ops ++ [Op.newConversation, Op.submitRequest t])).2
      = (runOps appInit ops).2 ++ [((runOps appInit ops).1).logic.currentThread + 1] ∧
    ∀ i ∈ (runOps appInit ops).2,
      i < ((runOps appInit ops).1).logic.currentThread + 1 := by
  refine ⟨runOps_pairwise ops appInit, ?_, ?_⟩
  · rw [runOps_append]
    rw [runOps_newConv_submit (runOps appInit ops).1 t
      (runOps_generating_false ops appInit rfl)]
  · intro i hi
    exact Nat.lt_succ_of_le (runOps_ids_bounds ops appInit i hi).2

/-- Witness for claim C7 on a concrete one-submission trace. -/
theorem thread_ids_monotone_and_fresh_witness :
    1 ∈ (runOps appInit [Op.submitRequest "a"]).2 ∧
    1 < ((runOps appInit [Op.submitRequest "a"]).1).logic.currentThread + 1 :=
  ⟨by decide,
    (thread_ids_monotone_and_fresh [Op.submitRequest "a"] "b").2.2 1 (by decide)⟩

/-- Claim C8: logic.py line 32 requests the names `Response` and
`StoppedStreamError` from `rag_demo.modes.chat`, whose runtime bindings do
not include `StoppedStreamError`, so the request fails with an ImportError at
that name; `Response` alone would have resolved. -/
theorem logic_module_unimportable :
    fromModule chatModuleNames logicChatImportNames
      = Except.error "cannot import name StoppedStreamError" ∧
    "StoppedStreamError" ∉ chatModuleNames ∧
    "Response" ∈ chatModuleNames :=
  ⟨rfl, by decide, by decide⟩

/-- Claim C9: `LocalProviderType` has exactly the members `HUGGING_FACE`,
`LLAMA_CPP` and `OLLAMA`; the attribute lookup of `DUMMY` fails, so
evaluating the class body of `DummyAgentProvider` raises AttributeError. -/
theorem localProviderType_has_no_dummy :
    (∀ t : LocalProviderType,
        t = LocalProviderType.HUGGING_FACE ∨ t = LocalProviderType.LLAMA_CPP ∨
          t = LocalProviderType.OLLAMA) ∧
    LocalProviderType.attrLookup "DUMMY" = none ∧
    dummyAgentProviderClassDef = Except.error "AttributeError: DUMMY" := by
  refine ⟨fun t => ?_, rfl, rfl⟩
  cases t
  · exact Or.inl rfl
  · exact Or.inr (Or.inl rfl)
  · exact Or.inr (Or.inr rfl)

/-- Claim C10: `Logic.__init__` accepts only `username`,
`application_start_time` and `sqlite_connection_string`, while the CLI
entrypoint passes the keyword `preferred_provider_type`, so binding the call
fails with a TypeError before the app runs. -/
theorem cli_logic_call_raises_typeerror :
    bindKeywords logicInitParams mainCallKeywords
      = Except.error "unexpected keyword argument preferred_provider_type" ∧
    "preferred_provider_type" ∉ logicInitParams :=
  ⟨rfl, by decide⟩

end RagDemo
